import Mathlib

/-!
Verification of the Python wrapper scripts of the
copyright-detector-music-backend repository
(src/python/search_wrapper.py and src/python/embedding_wrapper.py),
shallowly embedded in Lean 4.

Python floats are modelled as rationals (ℚ); the comparisons performed by
the code are exact on the values involved.  External collaborators that
the scripts call (json.loads / numpy conversion, os.path.exists, the
vector-search module's SimilaritySearcher / CopyrightDetector, librosa,
the AudioEmbeddingExtractor) are not part of this repository: they are
modelled as an explicit environment of oracle functions, and a Python
exception raised by a collaborator is modelled as an `Except.error`
carrying the exception's message string.  Side effects that matter to the
claims (loading an index, performing a search, invoking the demo-index
creation policy) are recorded in an explicit event trace returned next to
the result, so that "no search is performed" is a provable statement.
-/

/-- Mirrors `calculate_track_risk` of src/python/search_wrapper.py
(lines 156-167): a top-down if/elif chain over the similarity score. -/
def calculate_track_risk (similarity_score threshold : ℚ) : String :=
  if similarity_score ≥ 0.95 then "VERY_HIGH"
  else if similarity_score ≥ 0.85 then "HIGH"
  else if similarity_score ≥ threshold then "MEDIUM"
  else if similarity_score ≥ 0.5 then "LOW"
  else "VERY_LOW"

/-- Rank of a risk-level string in the order
VERY_LOW < LOW < MEDIUM < HIGH < VERY_HIGH (used to state monotonicity). -/
def riskRank : String → Nat
  | "LOW" => 1
  | "MEDIUM" => 2
  | "HIGH" => 3
  | "VERY_HIGH" => 4
  | _ => 0

/-- One raw match dictionary as produced by `searcher.search_similar`;
each field models `result.get(key, default)` access, `none` meaning the
key is absent (src/python/search_wrapper.py lines 106-118). -/
structure RawMatch where
  filename : Option String
  artist : Option String
  album : Option String
  genre : Option String
  similarity_score : Option ℚ
  distance : Option ℚ
  duration : Option ℚ
  year : Option Int
deriving DecidableEq

/-- The dictionary produced by `detector.analyze_embedding`;
`none` models an absent key (lines 121-122 use `.get` with defaults). -/
structure CopyrightAnalysis where
  overall_risk : Option String
  risk_score : Option ℚ
deriving DecidableEq

/-- One entry of the `similarTracks` list of the result dictionary
(lines 107-117). -/
structure SimilarTrack where
  filename : String
  artist : String
  album : String
  genre : String
  similarityScore : ℚ
  distance : ℚ
  copyrightRisk : String
  duration : ℚ
  year : Option Int
deriving DecidableEq

/-- The result dictionary returned by `search_similar_tracks` and printed
by `main` (the spec's QueryResult shape, §6). -/
structure SearchResult where
  success : Bool
  error : Option String
  similarTracks : List SimilarTrack
  copyrightRisk : String
  riskScore : ℚ
  totalMatches : Nat
  processingTimeMs : Nat
deriving DecidableEq

/-- The failure dictionary repeated verbatim in every error branch of
search_wrapper.py: success false, empty matches, UNKNOWN risk, 0.0 risk
score, 0 matches, and the human-readable error message. -/
def failureResult (msg : String) : SearchResult :=
  { success := false
  , error := some msg
  , similarTracks := []
  , copyrightRisk := "UNKNOWN"
  , riskScore := 0
  , totalMatches := 0
  , processingTimeMs := 0 }

/-- Outcome of the parse step `json.loads` followed by
`np.array(·, dtype=np.float32)` (lines 56-57).  `ok v` means the
conversion succeeded — which happens for more strings than JSON numeric
arrays: numpy also accepts JSON scalars, booleans and numeric strings
(inputs like "5"), producing a 0-d array; the carried list abstracts the
converted array's contents.  `caught e` means the conversion raised one
of the exception types caught by the inner handler of line 58
(json.JSONDecodeError or ValueError), with message `e`.  `uncaught e`
means it raised an exception of any other type — e.g. the TypeError
numpy raises for dict contents — which only the outer handler of
lines 145-154 catches. -/
inductive ParseOutcome where
  | ok (v : List ℚ)
  | caught (e : String)
  | uncaught (e : String)
deriving DecidableEq

/-- Environment of external collaborators called by search_wrapper.py.
`parseEmbedding` gives the outcome of `json.loads` followed by
`np.array(·, dtype=np.float32)` on the query string (see `ParseOutcome`
for the three-way split between success, exceptions caught at line 58,
and exceptions that fall through to the outer handler); `pathExists`
models `os.path.exists`; `loadEngine` models constructing
`SimilaritySearcher` and `CopyrightDetector`; `searchSimilar` and
`analyzeEmbedding` model the two calls of the search try-block;
`createDemo` models whether the `VectorIndexer`-based demo-index
creation in `create_demo_index_if_missing` succeeds. -/
structure SearchEnv where
  parseEmbedding : String → ParseOutcome
  pathExists : String → Bool
  loadEngine : String → Except String Unit
  searchSimilar : List ℚ → Int → Except String (List RawMatch)
  analyzeEmbedding : List ℚ → Except String CopyrightAnalysis
  createDemo : String → Bool

/-- Observable side effects of a query, recorded as a trace. -/
inductive SearchEvent where
  | loadIndex (path : String)
  | performSearch
  | analyze
  | createDemoIndex (path : String)
deriving DecidableEq

/-- Conversion of one raw match into a `similarTracks` entry
(lines 107-117): `.get` defaults applied, and the per-track risk computed
by `calculate_track_risk` on the same defaulted similarity score. -/
def toSimilarTrack (similarity_threshold : ℚ) (result : RawMatch) : SimilarTrack :=
  { filename := result.filename.getD ""
  , artist := result.artist.getD ""
  , album := result.album.getD ""
  , genre := result.genre.getD ""
  , similarityScore := result.similarity_score.getD 0
  , distance := result.distance.getD 0
  , copyrightRisk := calculate_track_risk (result.similarity_score.getD 0) similarity_threshold
  , duration := result.duration.getD 0
  , year := result.year }

/-- Mirrors `search_similar_tracks` (lines 40-154): parse the embedding,
check the index file exists, load the engine, search and analyze, each
failure returning the canonical failure dictionary with its message.
A parse exception caught at line 58 yields the malformed-input message;
a parse exception of any other type falls through to the outer handler
of lines 145-154 and yields its unexpected-error message (the other
steps have their own catch-all handlers, so the parse step is the one
place an exception reaches the outer handler).  Returns the result
together with the trace of collaborator effects. -/
def search_similar_tracks (env : SearchEnv) (embedding_data index_path : String)
    (top_k : Int) (similarity_threshold : ℚ) : SearchResult × List SearchEvent :=
  match env.parseEmbedding embedding_data with
  | .caught e => (failureResult ("Invalid embedding data: " ++ e), [])
  | .uncaught e => (failureResult ("Unexpected error during search: " ++ e), [])
  | .ok query_embedding =>
    if env.pathExists index_path then
      match env.loadEngine index_path with
      | .error e =>
          (failureResult ("Failed to load search index: " ++ e),
           [SearchEvent.loadIndex index_path])
      | .ok _ =>
        match env.searchSimilar query_embedding top_k with
        | .error e =>
            (failureResult ("Search operation failed: " ++ e),
             [SearchEvent.loadIndex index_path, SearchEvent.performSearch])
        | .ok similar_results =>
          match env.analyzeEmbedding query_embedding with
          | .error e =>
              (failureResult ("Search operation failed: " ++ e),
               [SearchEvent.loadIndex index_path, SearchEvent.performSearch,
                SearchEvent.analyze])
          | .ok copyright_analysis =>
            ({ success := true
             , error := none
             , similarTracks := similar_results.map (toSimilarTrack similarity_threshold)
             , copyrightRisk := copyright_analysis.overall_risk.getD "LOW"
             , riskScore := copyright_analysis.risk_score.getD 0
             , totalMatches := (similar_results.map (toSimilarTrack similarity_threshold)).length
             , processingTimeMs := 0 },
             [SearchEvent.loadIndex index_path, SearchEvent.performSearch,
              SearchEvent.analyze])
    else
      (failureResult ("Index file not found: " ++ index_path), [])

/-- The environment after `create_demo_index_if_missing index_path` ran:
the path now exists exactly if it existed before or the demo creation
succeeded (lines 169-204). -/
def demoEnv (env : SearchEnv) (index_path : String) : SearchEnv :=
  { env with
    pathExists := fun p => env.pathExists p || (p == index_path && env.createDemo index_path) }

/-- Mirrors `main` from the point where the arguments have been decoded
(lines 221-260): validate the top_k range, then the threshold range, then
run the demo-index policy when the path is missing, then delegate to
`search_similar_tracks`. -/
def main_run (env : SearchEnv) (embedding_data index_path : String)
    (top_k : Int) (similarity_threshold : ℚ) : SearchResult × List SearchEvent :=
  if top_k ≤ 0 ∨ 100 < top_k then
    (failureResult "top_k must be between 1 and 100", [])
  else if similarity_threshold < 0 ∨ 1 < similarity_threshold then
    (failureResult "similarity_threshold must be between 0.0 and 1.0", [])
  else if env.pathExists index_path then
    search_similar_tracks env embedding_data index_path top_k similarity_threshold
  else
    let r := search_similar_tracks (demoEnv env index_path) embedding_data index_path
               top_k similarity_threshold
    (r.1, SearchEvent.createDemoIndex index_path :: r.2)

/-- A concrete environment in which every embedding string fails to
parse, used to instantiate theorems about the failure path. -/
def unparseableEnv : SearchEnv :=
  { parseEmbedding := fun _ => ParseOutcome.caught "Expecting value"
  , pathExists := fun _ => true
  , loadEngine := fun _ => Except.ok ()
  , searchSimilar := fun _ _ => Except.ok []
  , analyzeEmbedding := fun _ => Except.ok ⟨none, none⟩
  , createDemo := fun _ => false }

/-- A concrete environment whose index path does not exist (and whose
demo creation would succeed, to show the engine never invokes it). -/
def absentIndexEnv : SearchEnv :=
  { parseEmbedding := fun _ => ParseOutcome.ok [1, 0]
  , pathExists := fun _ => false
  , loadEngine := fun _ => Except.error "unused"
  , searchSimilar := fun _ _ => Except.ok []
  , analyzeEmbedding := fun _ => Except.ok ⟨none, none⟩
  , createDemo := fun _ => true }

/-- A concrete raw match, shaped like the demo metadata of
`create_demo_index_if_missing`. -/
def demoRawMatch : RawMatch :=
  { filename := some "demo_song_0.wav"
  , artist := some "Demo Artist 0"
  , album := some "Demo Album 0"
  , genre := some "Rock"
  , similarity_score := some 1
  , distance := some 0
  , duration := some 180
  , year := some 2020 }

/-- A concrete environment in which the whole pipeline succeeds and the
search returns exactly one match. -/
def oneMatchEnv : SearchEnv :=
  { parseEmbedding := fun _ => ParseOutcome.ok [1]
  , pathExists := fun _ => true
  , loadEngine := fun _ => Except.ok ()
  , searchSimilar := fun _ _ => Except.ok [demoRawMatch]
  , analyzeEmbedding := fun _ => Except.ok ⟨some "HIGH", some 1⟩
  , createDemo := fun _ => false }

/-- A concrete environment mirroring the query string "[\x7b\x7d]":
`json.loads` succeeds (a one-element list holding a dict), and the numpy
conversion then raises a TypeError, an exception type the inner handler
of line 58 does not catch, so it falls through to the outer handler. -/
def typeErrorEnv : SearchEnv :=
  { parseEmbedding := fun _ =>
      ParseOutcome.uncaught "float argument must be a string or a number, not dict"
  , pathExists := fun _ => true
  , loadEngine := fun _ => Except.ok ()
  , searchSimilar := fun _ _ => Except.ok []
  , analyzeEmbedding := fun _ => Except.ok ⟨none, none⟩
  , createDemo := fun _ => false }

/-- An embedding ndarray as returned by `extractor.extract_embeddings`
when it is a numpy array: its serialized contents and its shape
(src/python/embedding_wrapper.py lines 98-104). -/
structure NDArray where
  tolist : List ℚ
  shape : List Nat
deriving DecidableEq

/-- The result dictionary of `extract_embeddings`
(embedding_wrapper.py lines 44-125). -/
structure EmbedResult where
  success : Bool
  error : Option String
  embeddings : List ℚ
  shape : List Nat
  model : String
  duration : ℚ
  sample_rate : ℚ
deriving DecidableEq

/-- The failure dictionary repeated in every error branch of
`extract_embeddings`: zero-value defaults plus the message and the
requested model name. -/
def embedFailure (msg model_name : String) : EmbedResult :=
  { success := false
  , error := some msg
  , embeddings := []
  , shape := []
  , model := model_name
  , duration := 0
  , sample_rate := 0 }

/-- Environment of external collaborators called by embedding_wrapper.py:
`audioExists` models `os.path.exists`; `validateAudio` models
`validate_audio_file` (an error is an exception it raises, caught by the
outer handler); `librosaLoad` models `librosa.load`, returning the sample
count of `y` and the sample rate `sr`; `extract` models constructing
`AudioEmbeddingExtractor` and calling its `extract_embeddings` (taking
the model name and the audio path), returning `none` when the value is
not a numpy array. -/
structure EmbedEnv where
  audioExists : String → Bool
  validateAudio : String → Except String Bool
  librosaLoad : String → Except String (Nat × ℚ)
  extract : String → String → Except String (Option NDArray)

/-- Mirrors `extract_embeddings` (embedding_wrapper.py lines 44-125):
check the file exists, validate its format, probe duration and sample
rate with librosa (falling back to 0 and 22050 if that fails), then
extract; any exception of the outer try-block becomes the generic
extraction failure. -/
def extract_embeddings (env : EmbedEnv) (audio_path : String)
    (model_name : String) : EmbedResult :=
  if env.audioExists audio_path then
    match env.validateAudio audio_path with
    | .error e => embedFailure ("Error extracting embeddings: " ++ e) model_name
    | .ok false => embedFailure ("Invalid audio file format: " ++ audio_path) model_name
    | .ok true =>
      let meta : ℚ × ℚ :=
        match env.librosaLoad audio_path with
        | .ok (n, sr) => ((n : ℚ) / sr, sr)
        | .error _ => (0, 22050)
      match env.extract model_name audio_path with
      | .error e => embedFailure ("Error extracting embeddings: " ++ e) model_name
      | .ok none =>
          { success := true
          , error := none
          , embeddings := []
          , shape := []
          , model := model_name
          , duration := meta.1
          , sample_rate := meta.2 }
      | .ok (some arr) =>
          { success := true
          , error := none
          , embeddings := arr.tolist
          , shape := arr.shape
          , model := model_name
          , duration := meta.1
          , sample_rate := meta.2 }
  else
    embedFailure ("Audio file not found: " ++ audio_path) model_name

/-- A concrete embedding environment whose audio file is missing. -/
def missingAudioEnv : EmbedEnv :=
  { audioExists := fun _ => false
  , validateAudio := fun _ => Except.ok true
  , librosaLoad := fun _ => Except.ok (22050, 22050)
  , extract := fun _ _ => Except.ok none }

/-- Helper lemmas about string prefixes, used to show that the error
messages of distinct failure branches can never coincide. -/
theorem append_ne_append (a b x y : String) (n : Nat)
    (hna : n ≤ a.data.length) (hnb : n ≤ b.data.length)
    (hab : a.data.take n ≠ b.data.take n) : a ++ x ≠ b ++ y := by
  intro h
  apply hab
  have hd : a.data ++ x.data = b.data ++ y.data := by
    simpa [String.data_append] using congrArg String.data h
  calc a.data.take n
      = (a.data ++ x.data).take n := (List.take_append_of_le_length hna).symm
    _ = (b.data ++ y.data).take n := by rw [hd]
    _ = b.data.take n := List.take_append_of_le_length hnb

/-- The two results of `search_similar_tracks` are the success dictionary
or the canonical failure dictionary with some message. -/
theorem search_shape (env : SearchEnv) (s p : String) (k : Int) (t : ℚ) :
    (search_similar_tracks env s p k t).1.success = true ∨
    ∃ m, (search_similar_tracks env s p k t).1 = failureResult m := by
  unfold search_similar_tracks
  rcases henv : env.parseEmbedding s with v | e | e <;> simp only [henv]
  · by_cases hp : env.pathExists p <;> simp only [hp, if_true, if_false, Bool.false_eq_true]
    · rcases hl : env.loadEngine p with e | u <;> simp only [hl]
      · exact Or.inr ⟨_, rfl⟩
      · rcases hs : env.searchSimilar v k with e | rs <;> simp only [hs]
        · exact Or.inr ⟨_, rfl⟩
        · rcases ha : env.analyzeEmbedding v with e | an <;> simp only [ha]
          · exact Or.inr ⟨_, rfl⟩
          · exact Or.inl (by simp)
    · exact Or.inr ⟨_, rfl⟩
  · exact Or.inr ⟨_, rfl⟩
  · exact Or.inr ⟨_, rfl⟩

/-- Same shape property for `main_run`. -/
theorem main_shape (env : SearchEnv) (s p : String) (k : Int) (t : ℚ) :
    (main_run env s p k t).1.success = true ∨
    ∃ m, (main_run env s p k t).1 = failureResult m := by
  unfold main_run
  split
  · exact Or.inr ⟨_, rfl⟩
  · split
    · exact Or.inr ⟨_, rfl⟩
    · split
      · exact search_shape env s p k t
      · exact search_shape (demoEnv env p) s p k t

/-- C1: `calculate_track_risk` assigns risk by the fixed bands evaluated
top-down — VERY_HIGH iff score ≥ 0.95, HIGH iff 0.85 ≤ score < 0.95,
MEDIUM iff threshold ≤ score < 0.85, LOW iff 0.5 ≤ score < 0.85 and
score < threshold, VERY_LOW iff score < 0.5 and score < threshold — and
in particular with threshold 0.8 it maps 0.96 to VERY_HIGH, 0.87 to HIGH,
0.81 to MEDIUM, 0.6 to LOW and 0.3 to VERY_LOW. -/
theorem calculate_track_risk_bands (s t : ℚ) :
    (calculate_track_risk s t = "VERY_HIGH" ↔ 0.95 ≤ s) ∧
    (calculate_track_risk s t = "HIGH" ↔ 0.85 ≤ s ∧ s < 0.95) ∧
    (calculate_track_risk s t = "MEDIUM" ↔ t ≤ s ∧ s < 0.85) ∧
    (calculate_track_risk s t = "LOW" ↔ 0.5 ≤ s ∧ s < 0.85 ∧ s < t) ∧
    (calculate_track_risk s t = "VERY_LOW" ↔ s < 0.5 ∧ s < t) ∧
    calculate_track_risk 0.96 0.8 = "VERY_HIGH" ∧
    calculate_track_risk 0.87 0.8 = "HIGH" ∧
    calculate_track_risk 0.81 0.8 = "MEDIUM" ∧
    calculate_track_risk 0.6 0.8 = "LOW" ∧
    calculate_track_risk 0.3 0.8 = "VERY_LOW" := by
  refine ⟨?_, ?_, ?_, ?_, ?_, ?_, ?_, ?_, ?_, ?_⟩
  · unfold calculate_track_risk
    split_ifs with h1 h2 h3 h4 <;> simp <;> linarith
  · unfold calculate_track_risk
    split_ifs with h1 h2 h3 h4 <;> simp <;>
      first
        | (constructor <;> linarith)
        | (intro h ha; linarith)
        | (intro h; linarith)
  · unfold calculate_track_risk
    split_ifs with h1 h2 h3 h4 <;> simp <;>
      first
        | (constructor <;> linarith)
        | (intro h ha; linarith)
        | (intro h; linarith)
  · unfold calculate_track_risk
    split_ifs with h1 h2 h3 h4 <;> simp <;>
      first
        | (refine ⟨by linarith, by linarith, by linarith⟩)
        | (intro h ha hb; linarith)
        | (intro h; linarith)
        | (intro h ha; linarith)
  · unfold calculate_track_risk
    split_ifs with h1 h2 h3 h4 <;> simp <;>
      first
        | (constructor <;> linarith)
        | (intro h ha; linarith)
        | (intro h; linarith)
  all_goals (unfold calculate_track_risk; norm_num)

/-- C6: `calculate_track_risk` is monotone in the similarity score for
every fixed threshold, with respect to the risk order
VERY_LOW < LOW < MEDIUM < HIGH < VERY_HIGH. -/
theorem calculate_track_risk_monotone (t s₁ s₂ : ℚ) (h : s₁ ≤ s₂) :
    riskRank (calculate_track_risk s₁ t) ≤ riskRank (calculate_track_risk s₂ t) := by
  unfold calculate_track_risk
  split_ifs <;> simp [riskRank] <;> linarith

/-- Witness for C6 at the concrete scores 0 ≤ 1 with threshold 1. -/
theorem calculate_track_risk_monotone_witness :
    riskRank (calculate_track_risk 0 1) ≤ riskRank (calculate_track_risk 1 1) :=
  calculate_track_risk_monotone 1 0 1 (by decide)

/-- C8: `calculate_track_risk` is total (it is a function defined on
every rational score and threshold, including values outside the unit
interval) and its output is always exactly one of the five risk strings;
it is never "UNKNOWN". -/
theorem calculate_track_risk_total (s t : ℚ) :
    (calculate_track_risk s t = "VERY_HIGH" ∨ calculate_track_risk s t = "HIGH" ∨
     calculate_track_risk s t = "MEDIUM" ∨ calculate_track_risk s t = "LOW" ∨
     calculate_track_risk s t = "VERY_LOW") ∧
    calculate_track_risk s t ≠ "UNKNOWN" := by
  unfold calculate_track_risk
  split_ifs <;> simp

/-- A caught parse failure short-circuits the whole query: canonical
failure dictionary with the malformed-input message, empty trace. -/
theorem search_parse_error (env : SearchEnv) (s p : String) (k : Int) (t : ℚ)
    (e : String) (he : env.parseEmbedding s = ParseOutcome.caught e) :
    search_similar_tracks env s p k t =
      (failureResult ("Invalid embedding data: " ++ e), []) := by
  unfold search_similar_tracks
  rw [he]

/-- An uncaught parse exception also short-circuits the whole query, but
is reported by the outer handler with its unexpected-error message. -/
theorem search_parse_uncaught (env : SearchEnv) (s p : String) (k : Int) (t : ℚ)
    (e : String) (he : env.parseEmbedding s = ParseOutcome.uncaught e) :
    search_similar_tracks env s p k t =
      (failureResult ("Unexpected error during search: " ++ e), []) := by
  unfold search_similar_tracks
  rw [he]

/-- A missing index (after a successful parse) yields the not-found
failure dictionary with an empty trace. -/
theorem search_missing_index (env : SearchEnv) (s p : String) (k : Int) (t : ℚ)
    (v : List ℚ) (hv : env.parseEmbedding s = ParseOutcome.ok v)
    (hp : env.pathExists p = false) :
    search_similar_tracks env s p k t =
      (failureResult ("Index file not found: " ++ p), []) := by
  unfold search_similar_tracks
  rw [hv]
  simp [hp]

/-- The not-found message never collides with the malformed-input one. -/
theorem not_found_msg_ne_invalid (x y : String) :
    "Index file not found: " ++ x ≠ "Invalid embedding data: " ++ y :=
  append_ne_append _ _ _ _ 3 (by decide) (by decide) (by decide)

/-- The load-failure message never collides with the malformed-input one. -/
theorem load_msg_ne_invalid (x y : String) :
    "Failed to load search index: " ++ x ≠ "Invalid embedding data: " ++ y :=
  append_ne_append _ _ _ _ 1 (by decide) (by decide) (by decide)

/-- The search-failure message never collides with the malformed-input one. -/
theorem search_msg_ne_invalid (x y : String) :
    "Search operation failed: " ++ x ≠ "Invalid embedding data: " ++ y :=
  append_ne_append _ _ _ _ 1 (by decide) (by decide) (by decide)

/-- The outer handler's unexpected-error message never collides with the
malformed-input one. -/
theorem unexpected_msg_ne_invalid (x y : String) :
    "Unexpected error during search: " ++ x ≠ "Invalid embedding data: " ++ y :=
  append_ne_append _ _ _ _ 1 (by decide) (by decide) (by decide)

/-- C2: every failed query — whatever the cause — produces the canonical
zero-value result: empty matches list, UNKNOWN overall risk, 0.0 risk
score, 0 total matches, and a non-null error message; this holds both for
`search_similar_tracks` and for the full `main` path, so no partial
result ever escapes a failed step. -/
theorem failed_query_canonical (env : SearchEnv) (s p : String) (k : Int) (t : ℚ) :
    ((search_similar_tracks env s p k t).1.success = false →
       (search_similar_tracks env s p k t).1.similarTracks = [] ∧
       (search_similar_tracks env s p k t).1.copyrightRisk = "UNKNOWN" ∧
       (search_similar_tracks env s p k t).1.riskScore = 0 ∧
       (search_similar_tracks env s p k t).1.totalMatches = 0 ∧
       ∃ m, (search_similar_tracks env s p k t).1.error = some m) ∧
    ((main_run env s p k t).1.success = false →
       (main_run env s p k t).1.similarTracks = [] ∧
       (main_run env s p k t).1.copyrightRisk = "UNKNOWN" ∧
       (main_run env s p k t).1.riskScore = 0 ∧
       (main_run env s p k t).1.totalMatches = 0 ∧
       ∃ m, (main_run env s p k t).1.error = some m) := by
  constructor
  · intro h
    rcases search_shape env s p k t with hs | ⟨m, hm⟩
    · simp [hs] at h
    · rw [hm]; exact ⟨rfl, rfl, rfl, rfl, m, rfl⟩
  · intro h
    rcases main_shape env s p k t with hs | ⟨m, hm⟩
    · simp [hs] at h
    · rw [hm]; exact ⟨rfl, rfl, rfl, rfl, m, rfl⟩

/-- Witness for C2: the failure path evaluated in a concrete environment
whose embedding string does not parse. -/
theorem failed_query_canonical_witness :
    ((search_similar_tracks unparseableEnv "x" "p" 10 1).1.similarTracks = [] ∧
     (search_similar_tracks unparseableEnv "x" "p" 10 1).1.copyrightRisk = "UNKNOWN" ∧
     (search_similar_tracks unparseableEnv "x" "p" 10 1).1.riskScore = 0 ∧
     (search_similar_tracks unparseableEnv "x" "p" 10 1).1.totalMatches = 0 ∧
     ∃ m, (search_similar_tracks unparseableEnv "x" "p" 10 1).1.error = some m) ∧
    ((main_run unparseableEnv "x" "p" 10 1).1.similarTracks = [] ∧
     (main_run unparseableEnv "x" "p" 10 1).1.copyrightRisk = "UNKNOWN" ∧
     (main_run unparseableEnv "x" "p" 10 1).1.riskScore = 0 ∧
     (main_run unparseableEnv "x" "p" 10 1).1.totalMatches = 0 ∧
     ∃ m, (main_run unparseableEnv "x" "p" 10 1).1.error = some m) :=
  ⟨(failed_query_canonical unparseableEnv "x" "p" 10 1).1 rfl,
   (failed_query_canonical unparseableEnv "x" "p" 10 1).2 (by decide)⟩

/-- C4: a top_k outside 1..100 fails with the range error and the
canonical zero-value failure result; with top_k in range, a threshold
outside [0,1] fails with its range error; with both in range the query
passes both checks and is delegated to the search (over the environment
left by the demo-index policy). -/
theorem main_range_validation (env : SearchEnv) (s p : String) (k : Int) (t : ℚ) :
    ((k ≤ 0 ∨ 100 < k) →
       (main_run env s p k t).1 = failureResult "top_k must be between 1 and 100") ∧
    (0 < k → k ≤ 100 → (t < 0 ∨ 1 < t) →
       (main_run env s p k t).1 =
         failureResult "similarity_threshold must be between 0.0 and 1.0") ∧
    (0 < k → k ≤ 100 → 0 ≤ t → t ≤ 1 →
       (main_run env s p k t).1 =
         (search_similar_tracks (if env.pathExists p then env else demoEnv env p)
           s p k t).1) := by
  refine ⟨?_, ?_, ?_⟩
  · intro h
    unfold main_run
    rw [if_pos h]
  · intro hk1 hk2 ht
    have hk : ¬(k ≤ 0 ∨ 100 < k) := by push_neg; omega
    unfold main_run
    rw [if_neg hk, if_pos ht]
  · intro hk1 hk2 ht1 ht2
    have hk : ¬(k ≤ 0 ∨ 100 < k) := by push_neg; omega
    have ht : ¬(t < 0 ∨ 1 < t) := by push_neg; exact ⟨ht1, ht2⟩
    unfold main_run
    rw [if_neg hk, if_neg ht]
    by_cases hp : env.pathExists p = true
    · rw [if_pos hp, if_pos hp]
    · rw [if_neg hp, if_neg hp]

/-- Witness for C4 at top_k = 101. -/
theorem main_range_validation_witness :
    (main_run unparseableEnv "x" "p" 101 1).1 =
      failureResult "top_k must be between 1 and 100" :=
  (main_range_validation unparseableEnv "x" "p" 101 1).1 (Or.inr (by decide))

/-- Counterexample to C3 as stated: for an input that is both unparseable
and has top_k = 0, the code reports the top_k range error — the range
checks of `main` run before the embedding is ever parsed, so the parse
failure is not the error that wins. -/
theorem main_validation_order_cex :
    (main_run unparseableEnv "not json" "index.faiss" 0 0.8).1 =
      failureResult "top_k must be between 1 and 100" ∧
    failureResult "top_k must be between 1 and 100" ≠
      failureResult "Invalid embedding data: Expecting value" := by
  constructor
  · unfold main_run
    rw [if_pos (Or.inl (by norm_num : (0:Int) ≤ 0))]
  · intro h
    have h2 := congrArg SearchResult.error h
    simp only [failureResult] at h2
    exact absurd h2 (by decide)

/-- C3 (amended): query validation runs in the order (1) top_k range,
(2) similarity_threshold range, (3) parse embedding_json, (4) resolve
index_path; the first failing step wins and short-circuits the rest. -/
theorem main_validation_order (env : SearchEnv) (s p : String) (k : Int) (t : ℚ) :
    ((k ≤ 0 ∨ 100 < k) →
       (main_run env s p k t).1 = failureResult "top_k must be between 1 and 100") ∧
    (0 < k → k ≤ 100 → (t < 0 ∨ 1 < t) →
       (main_run env s p k t).1 =
         failureResult "similarity_threshold must be between 0.0 and 1.0") ∧
    (0 < k → k ≤ 100 → 0 ≤ t → t ≤ 1 →
       ∀ e, env.parseEmbedding s = ParseOutcome.caught e →
       (main_run env s p k t).1 = failureResult ("Invalid embedding data: " ++ e)) ∧
    (0 < k → k ≤ 100 → 0 ≤ t → t ≤ 1 →
       ∀ e, env.parseEmbedding s = ParseOutcome.uncaught e →
       (main_run env s p k t).1 =
         failureResult ("Unexpected error during search: " ++ e)) ∧
    (0 < k → k ≤ 100 → 0 ≤ t → t ≤ 1 →
       ∀ v, env.parseEmbedding s = ParseOutcome.ok v →
       env.pathExists p = false → env.createDemo p = false →
       (main_run env s p k t).1 = failureResult ("Index file not found: " ++ p)) := by
  refine ⟨?_, ?_, ?_, ?_, ?_⟩
  · intro h
    unfold main_run
    rw [if_pos h]
  · intro hk1 hk2 ht
    have hk : ¬(k ≤ 0 ∨ 100 < k) := by push_neg; omega
    unfold main_run
    rw [if_neg hk, if_pos ht]
  · intro hk1 hk2 ht1 ht2 e he
    have hk : ¬(k ≤ 0 ∨ 100 < k) := by push_neg; omega
    have ht : ¬(t < 0 ∨ 1 < t) := by push_neg; exact ⟨ht1, ht2⟩
    unfold main_run
    rw [if_neg hk, if_neg ht]
    by_cases hp : env.pathExists p = true
    · rw [if_pos hp, search_parse_error env s p k t e he]
    · rw [if_neg hp]
      show (search_similar_tracks (demoEnv env p) s p k t).1 = _
      rw [search_parse_error (demoEnv env p) s p k t e he]
  · intro hk1 hk2 ht1 ht2 e he
    have hk : ¬(k ≤ 0 ∨ 100 < k) := by push_neg; omega
    have ht : ¬(t < 0 ∨ 1 < t) := by push_neg; exact ⟨ht1, ht2⟩
    unfold main_run
    rw [if_neg hk, if_neg ht]
    by_cases hp : env.pathExists p = true
    · rw [if_pos hp, search_parse_uncaught env s p k t e he]
    · rw [if_neg hp]
      show (search_similar_tracks (demoEnv env p) s p k t).1 = _
      rw [search_parse_uncaught (demoEnv env p) s p k t e he]
  · intro hk1 hk2 ht1 ht2 v hv hp hc
    have hk : ¬(k ≤ 0 ∨ 100 < k) := by push_neg; omega
    have ht : ¬(t < 0 ∨ 1 < t) := by push_neg; exact ⟨ht1, ht2⟩
    unfold main_run
    rw [if_neg hk, if_neg ht, if_neg (by simp [hp])]
    show (search_similar_tracks (demoEnv env p) s p k t).1 = _
    have hdp : (demoEnv env p).pathExists p = false := by
      simp [demoEnv, hp, hc]
    rw [search_missing_index (demoEnv env p) s p k t v hv hdp]

/-- Witness for the amended C3: with both ranges valid, an unparseable
embedding is reported as the malformed-input failure. -/
theorem main_validation_order_witness :
    (main_run unparseableEnv "oops" "idx" 10 1).1 =
      failureResult ("Invalid embedding data: " ++ "Expecting value") :=
  (main_validation_order unparseableEnv "oops" "idx" 10 1).2.2.1
    (by decide) (by decide) (by decide) (by decide) "Expecting value" rfl

/-- C5: a query against a nonexistent index path fails with the
structured not-found result naming the missing index, with an empty
effect trace: no unhandled fault, no engine load, no search, and no
demo-index creation by the engine (the trace could record
`createDemoIndex`, and does not). -/
theorem missing_index_not_found (env : SearchEnv) (s p : String) (k : Int) (t : ℚ)
    (v : List ℚ) (hv : env.parseEmbedding s = ParseOutcome.ok v)
    (hp : env.pathExists p = false) :
    search_similar_tracks env s p k t =
      (failureResult ("Index file not found: " ++ p), []) :=
  search_missing_index env s p k t v hv hp

/-- Witness for C5 in a concrete environment whose index path is absent
(and whose demo creation would succeed, were it ever invoked). -/
theorem missing_index_not_found_witness :
    search_similar_tracks absentIndexEnv "q" "missing.faiss" 10 1 =
      (failureResult ("Index file not found: " ++ "missing.faiss"), []) :=
  missing_index_not_found absentIndexEnv "q" "missing.faiss" 10 1 [1, 0] rfl rfl

/-- Counterexample to C7 as stated: the malformed-input failure is not
equivalent to "the string does not parse as a JSON numeric array
convertible to a float vector".  For the query string "[\x7b\x7d]" —
which does not parse as a JSON numeric array — json.loads succeeds and
the numpy conversion raises a TypeError that the inner handler of
line 58 does not catch, so the code reports the outer handler's
unexpected-error failure and no malformed-input error at all; and for
the scalar string "5" — also not a JSON numeric array — the conversion
succeeds outright and the query runs to success. -/
theorem malformed_embedding_iff_cex :
    (search_similar_tracks typeErrorEnv "[\x7b\x7d]" "idx" 10 1).1 =
      failureResult ("Unexpected error during search: " ++
        "float argument must be a string or a number, not dict") ∧
    ¬ (∃ e, (search_similar_tracks typeErrorEnv "[\x7b\x7d]" "idx" 10 1).1.error =
         some ("Invalid embedding data: " ++ e)) ∧
    (search_similar_tracks oneMatchEnv "5" "idx" 10 1).1.success = true := by
  refine ⟨rfl, ?_, rfl⟩
  rintro ⟨e, he⟩
  exact unexpected_msg_ne_invalid
    "float argument must be a string or a number, not dict" e (Option.some.inj he)

/-- C7 (amended): the query fails with the malformed-input error exactly
when json.loads followed by the numpy float conversion raises one of the
exception types caught at line 58 (json.JSONDecodeError or ValueError);
a parse-step exception of any other type (such as the TypeError raised
for non-numeric array contents) is instead reported by the outer handler
as an unexpected-error failure, which is never the malformed-input
message; both parse-stage failures leave the trace empty — no index is
loaded and no search is performed — and when the conversion succeeds, no
branch of the query can produce the malformed-input message. -/
theorem malformed_embedding_caught_iff (env : SearchEnv) (s p : String) (k : Int) (t : ℚ) :
    (∀ e, env.parseEmbedding s = ParseOutcome.caught e →
       search_similar_tracks env s p k t =
         (failureResult ("Invalid embedding data: " ++ e), [])) ∧
    (∀ e, env.parseEmbedding s = ParseOutcome.uncaught e →
       search_similar_tracks env s p k t =
         (failureResult ("Unexpected error during search: " ++ e), []) ∧
       ∀ x, "Unexpected error during search: " ++ e ≠
         "Invalid embedding data: " ++ x) ∧
    (∀ v, env.parseEmbedding s = ParseOutcome.ok v → ∀ e,
       (search_similar_tracks env s p k t).1.error ≠
         some ("Invalid embedding data: " ++ e)) := by
  refine ⟨?_, ?_, ?_⟩
  · intro e he
    exact search_parse_error env s p k t e he
  · intro e he
    exact ⟨search_parse_uncaught env s p k t e he,
           fun x => unexpected_msg_ne_invalid e x⟩
  · intro v hv e
    unfold search_similar_tracks
    rw [hv]
    by_cases hp : env.pathExists p <;>
      simp only [hp, if_true, if_false, Bool.false_eq_true]
    · rcases hl : env.loadEngine p with e' | u <;> simp only [hl]
      · simpa [failureResult] using load_msg_ne_invalid e' e
      · rcases hs : env.searchSimilar v k with e' | rs <;> simp only [hs]
        · simpa [failureResult] using search_msg_ne_invalid e' e
        · rcases ha : env.analyzeEmbedding v with e' | an <;> simp only [ha]
          · simpa [failureResult] using search_msg_ne_invalid e' e
          · simp
    · simpa [failureResult] using not_found_msg_ne_invalid p e

/-- Witness for the amended C7: a concrete embedding string raising a
caught parse exception produces exactly the malformed-input failure with
an empty trace. -/
theorem malformed_embedding_caught_iff_witness :
    search_similar_tracks unparseableEnv "bad" "idx" 10 1 =
      (failureResult ("Invalid embedding data: " ++ "Expecting value"), []) :=
  (malformed_embedding_caught_iff unparseableEnv "bad" "idx" 10 1).1 "Expecting value" rfl

/-- C9: in every result of `search_similar_tracks`, totalMatches equals
the length of the similarTracks list, and each entry's copyrightRisk is
`calculate_track_risk` of that entry's similarity score and the query's
threshold. -/
theorem result_totals_and_risks (env : SearchEnv) (s p : String) (k : Int) (t : ℚ) :
    (search_similar_tracks env s p k t).1.totalMatches =
      (search_similar_tracks env s p k t).1.similarTracks.length ∧
    ∀ tr ∈ (search_similar_tracks env s p k t).1.similarTracks,
      tr.copyrightRisk = calculate_track_risk tr.similarityScore t := by
  unfold search_similar_tracks
  rcases henv : env.parseEmbedding s with v | e | e <;> simp only [henv]
  · by_cases hp : env.pathExists p <;>
      simp only [hp, if_true, if_false, Bool.false_eq_true]
    · rcases hl : env.loadEngine p with e' | u <;> simp only [hl]
      · simp [failureResult]
      · rcases hs : env.searchSimilar v k with e' | rs <;> simp only [hs]
        · simp [failureResult]
        · rcases ha : env.analyzeEmbedding v with e' | an <;> simp only [ha]
          · simp [failureResult]
          · refine ⟨by simp, ?_⟩
            intro tr htr
            simp only [List.mem_map] at htr
            obtain ⟨r, hr, rfl⟩ := htr
            rfl
    · simp [failureResult]
  · simp [failureResult]
  · simp [failureResult]

/-- Witness for C9: a successful query with one concrete match. -/
theorem result_totals_and_risks_witness :
    (search_similar_tracks oneMatchEnv "q" "demo.faiss" 10 1).1.totalMatches =
      (search_similar_tracks oneMatchEnv "q" "demo.faiss" 10 1).1.similarTracks.length ∧
    (toSimilarTrack 1 demoRawMatch).copyrightRisk =
      calculate_track_risk (toSimilarTrack 1 demoRawMatch).similarityScore 1 :=
  ⟨(result_totals_and_risks oneMatchEnv "q" "demo.faiss" 10 1).1,
   (result_totals_and_risks oneMatchEnv "q" "demo.faiss" 10 1).2
     (toSimilarTrack 1 demoRawMatch)
     (by show toSimilarTrack 1 demoRawMatch ∈ [toSimilarTrack 1 demoRawMatch]
         exact List.mem_singleton.mpr rfl)⟩

/-- C10: `extract_embeddings` always returns a result dictionary (it is a
total function of its environment and arguments, mirroring the outer
try/except that converts any exception into a result), the dictionary
always carries the requested model name, and whenever success is false it
carries the zero-value defaults — empty embeddings, empty shape, duration
0, sample_rate 0 — together with a non-null error message. -/
theorem extract_embeddings_failure_defaults (env : EmbedEnv)
    (audio_path model_name : String) :
    (extract_embeddings env audio_path model_name).model = model_name ∧
    ((extract_embeddings env audio_path model_name).success = false →
       (extract_embeddings env audio_path model_name).embeddings = [] ∧
       (extract_embeddings env audio_path model_name).shape = [] ∧
       (extract_embeddings env audio_path model_name).duration = 0 ∧
       (extract_embeddings env audio_path model_name).sample_rate = 0 ∧
       ∃ m, (extract_embeddings env audio_path model_name).error = some m) := by
  unfold extract_embeddings
  by_cases ha : env.audioExists audio_path <;>
    simp only [ha, if_true, if_false, Bool.false_eq_true]
  · rcases hv : env.validateAudio audio_path with e | b
    · exact ⟨rfl, fun _ => ⟨rfl, rfl, rfl, rfl, _, rfl⟩⟩
    · cases b
      · exact ⟨rfl, fun _ => ⟨rfl, rfl, rfl, rfl, _, rfl⟩⟩
      · rcases hx : env.extract model_name audio_path with e | arr
        · exact ⟨rfl, fun _ => ⟨rfl, rfl, rfl, rfl, _, rfl⟩⟩
        · cases arr
          · exact ⟨rfl, fun h => by simp at h⟩
          · exact ⟨rfl, fun h => by simp at h⟩
  · exact ⟨rfl, fun _ => ⟨rfl, rfl, rfl, rfl, _, rfl⟩⟩

/-- Witness for C10 in a concrete environment whose audio file is
missing. -/
theorem extract_embeddings_failure_defaults_witness :
    (extract_embeddings missingAudioEnv "song.wav" "spectrogram").model = "spectrogram" ∧
    ((extract_embeddings missingAudioEnv "song.wav" "spectrogram").embeddings = [] ∧
     (extract_embeddings missingAudioEnv "song.wav" "spectrogram").shape = [] ∧
     (extract_embeddings missingAudioEnv "song.wav" "spectrogram").duration = 0 ∧
     (extract_embeddings missingAudioEnv "song.wav" "spectrogram").sample_rate = 0 ∧
     ∃ m, (extract_embeddings missingAudioEnv "song.wav" "spectrogram").error = some m) :=
  ⟨(extract_embeddings_failure_defaults missingAudioEnv "song.wav" "spectrogram").1,
   (extract_embeddings_failure_defaults missingAudioEnv "song.wav" "spectrogram").2 rfl⟩
